import Mathlib

/-!
Shallow embedding of `src/railway_server.py`: the `DeviceRegistry` store,
the Socket.IO signaling handlers, the REST `stop_session` endpoint and one
iteration of the background cleanup loop. Python dicts are modelled as
insertion-ordered association lists, wall-clock times as integers, and the
nondeterministic `str(uuid.uuid4())` in `create_session` as an explicit
`generated_id` argument. Redis mirroring is an optional non-authoritative
side effect in the code and is not modelled.
-/

namespace RailwayServer

/-- Python dict write `m[k] = v`: replace the value in place when the key is
present (keeping its position), otherwise append at the end. -/
def dictSet {α : Type} : List (String × α) → String → α → List (String × α)
  | [], k, v => [(k, v)]
  | p :: rest, k, v => if p.1 = k then (k, v) :: rest else p :: dictSet rest k v

/-- Python dict read `m.get(k)`. -/
def dictGet {α : Type} (m : List (String × α)) (k : String) : Option α :=
  (m.find? (fun p => decide (p.1 = k))).map (fun p => p.2)

/-- Python membership test `k in m`. -/
def dictContains {α : Type} : List (String × α) → String → Bool
  | [], _ => false
  | p :: rest, k => decide (p.1 = k) || dictContains rest k

/-- Python `del m[k]`. -/
def dictDel {α : Type} (m : List (String × α)) (k : String) : List (String × α) :=
  m.filter (fun p => decide (p.1 ≠ k))

/-- A device record, with the fields built by `register_device`. -/
structure Device where
  id : String
  name : String
  status : String
  last_seen : Int
  capabilities : List String
  public_ip : Option String
  local_ip : Option String
  device_type : String
  version : String
deriving DecidableEq, Repr

/-- The fields `register_device` reads from the registration payload via
`device_info.get(...)`; `none` models an absent key. -/
structure DeviceInfo where
  name : Option String
  capabilities : Option (List String)
  public_ip : Option String
  local_ip : Option String
  device_type : Option String
  version : Option String
deriving DecidableEq, Repr

/-- A session record, with the fields built by `create_session`. -/
structure Session where
  id : String
  server_id : String
  client_id : Option String
  status : String
  created_at : Int
  last_activity : Int
deriving DecidableEq, Repr

/-- State of the `DeviceRegistry` class: the `devices` and `sessions` dicts. -/
structure Registry where
  devices : List (String × Device)
  sessions : List (String × Session)
deriving DecidableEq, Repr

/-- An element of the list built by `get_available_servers`: only these four
fields of a device are copied into the listing. -/
structure ServerEntry where
  id : String
  name : String
  device_type : String
  last_seen : Int
deriving DecidableEq, Repr

/-- The record dict literal built by `register_device`: every field comes from
the payload via `device_info.get(...)`, with the code's defaults for absent
keys (`name` truncates the id, `capabilities` defaults to `['client']`). -/
def freshDevice (device_id : String) (info : DeviceInfo) (now : Int) : Device :=
  { id := device_id
    name := info.name.getD ("Device " ++ device_id.take 8)
    status := "online"
    last_seen := now
    capabilities := info.capabilities.getD ["client"]
    public_ip := info.public_ip
    local_ip := info.local_ip
    device_type := info.device_type.getD "android"
    version := info.version.getD "1.0.0" }

/-- `DeviceRegistry.register_device`: builds a fresh record from the payload
(defaults for every absent field), stores it under `device_id` and returns it. -/
def register_device (st : Registry) (device_id : String) (info : DeviceInfo)
    (now : Int) : Registry × Device :=
  ({ st with devices := dictSet st.devices device_id (freshDevice device_id info now) },
   freshDevice device_id info now)

/-- `DeviceRegistry.update_device_status`: updates `status` and `last_seen`
when the device exists, otherwise does nothing. -/
def update_device_status (st : Registry) (device_id status : String)
    (now : Int) : Registry :=
  match dictGet st.devices device_id with
  | some d =>
      { st with devices :=
          dictSet st.devices device_id { d with status := status, last_seen := now } }
  | none => st

/-- `DeviceRegistry.get_available_servers`: collects, in dict iteration order,
the devices that are online, have `server` among their capabilities and were
seen less than 300 time units ago; only four fields are copied out. -/
def get_available_servers (st : Registry) (now : Int) : List ServerEntry :=
  st.devices.filterMap (fun p =>
    if p.2.status = "online" ∧ "server" ∈ p.2.capabilities ∧ now - p.2.last_seen < 300
    then some ⟨p.1, p.2.name, p.2.device_type, p.2.last_seen⟩
    else none)

/-- `DeviceRegistry.create_session`: the code computes
`session_id = str(uuid.uuid4())`, modelled here as the `generated_id`
argument, and stores a fresh record under it with no collision check. -/
def create_session (st : Registry) (generated_id server_id : String)
    (client_id : Option String) (now : Int) : Registry × String :=
  let s : Session :=
    { id := generated_id, server_id := server_id, client_id := client_id
      status := "connecting", created_at := now, last_activity := now }
  ({ st with sessions := dictSet st.sessions generated_id s }, generated_id)

/-- `DeviceRegistry.update_session_status`: when `session_id` is in the
sessions dict, sets its `status` and refreshes `last_activity`; otherwise a
no-op. -/
def update_session_status (st : Registry) (session_id status : String)
    (now : Int) : Registry :=
  match dictGet st.sessions session_id with
  | some s =>
      { st with sessions :=
          dictSet st.sessions session_id { s with status := status, last_activity := now } }
  | none => st

/-- `DeviceRegistry.get_session`. -/
def get_session (st : Registry) (session_id : String) : Option Session :=
  dictGet st.sessions session_id

/-- One iteration of the `_cleanup_expired` loop body: collect the ids of
devices not seen for more than 600 units and of sessions inactive for more
than 3600 units, then delete each collected id. -/
def cleanup_expired_once (st : Registry) (now : Int) : Registry :=
  let expired_devices :=
    (st.devices.filter (fun p => decide (now - p.2.last_seen > 600))).map Prod.fst
  let expired_sessions :=
    (st.sessions.filter (fun p => decide (now - p.2.last_activity > 3600))).map Prod.fst
  { devices := expired_devices.foldl (fun m did => dictDel m did) st.devices
    sessions := expired_sessions.foldl (fun m sid => dictDel m sid) st.sessions }

/-- Payload of a signaling Socket.IO event: the two keys the handlers read
(`data.get('session_id')`, `data.get('target_device')`) plus the rest of the
dict, which the handlers never inspect, as an opaque blob. -/
structure SignalData where
  session_id : Option String
  target_device : Option String
  payload : String
deriving DecidableEq, Repr

/-- Python truthiness of a `data.get(...)` result: `None` and `""` are falsy. -/
def truthy : Option String → Bool
  | none => false
  | some s => decide (s ≠ "")

/-- An outbound Socket.IO emission. -/
inductive Emit where
  | errorMsg (message : String)
  | forward (room event : String) (data : SignalData)
  | statusUpdated (session_id status : String)
deriving DecidableEq, Repr

/-- The `disconnect` handler: the code only logs the disconnecting endpoint;
the registry is not touched and nothing is emitted. -/
def handle_disconnect (st : Registry) (_endpoint_sid : String) :
    Registry × List Emit :=
  (st, [])

/-- Common body of the three relay handlers (`webrtc_offer`, `webrtc_answer`,
`ice_candidate`): reject when `session_id` or `target_device` is missing or
empty, otherwise re-emit the whole payload to the room of the target device. -/
def relay_handler (event : String) (st : Registry) (data : SignalData) :
    Registry × List Emit :=
  if truthy data.session_id && truthy data.target_device then
    (st, [Emit.forward ("device_" ++ data.target_device.getD "") event data])
  else
    (st, [Emit.errorMsg "Session ID and target device required"])

/-- The `webrtc_offer` handler. -/
def handle_webrtc_offer (st : Registry) (data : SignalData) :
    Registry × List Emit :=
  relay_handler "webrtc_offer" st data

/-- The `webrtc_answer` handler. -/
def handle_webrtc_answer (st : Registry) (data : SignalData) :
    Registry × List Emit :=
  relay_handler "webrtc_answer" st data

/-- The `ice_candidate` handler. -/
def handle_ice_candidate (st : Registry) (data : SignalData) :
    Registry × List Emit :=
  relay_handler "ice_candidate" st data

/-- Payload of the `session_started` / `session_ended` events and of the REST
`stop_session` body: only the `session_id` key is read. -/
structure SessionEventData where
  session_id : Option String
deriving DecidableEq, Repr

/-- The `session_started` handler: when `session_id` is truthy, marks the
session `active` and emits a status update (even when the id is unknown). -/
def handle_session_started (st : Registry) (data : SessionEventData)
    (now : Int) : Registry × List Emit :=
  if truthy data.session_id then
    let sid := data.session_id.getD ""
    (update_session_status st sid "active" now, [Emit.statusUpdated sid "active"])
  else (st, [])

/-- The `session_ended` handler: when `session_id` is truthy, marks the
session `ended` and emits a status update (even when the id is unknown). -/
def handle_session_ended (st : Registry) (data : SessionEventData)
    (now : Int) : Registry × List Emit :=
  if truthy data.session_id then
    let sid := data.session_id.getD ""
    (update_session_status st sid "ended" now, [Emit.statusUpdated sid "ended"])
  else (st, [])

/-- Result of a REST endpoint: success, or an error with an HTTP status. -/
inductive RestResponse where
  | ok (message : String)
  | err (status : Nat) (message : String)
deriving DecidableEq, Repr

/-- The REST `stop_session` endpoint: 400 without a body or a truthy
`session_id`, 404 when the session is unknown, otherwise marks it `ended`. -/
def stop_session (st : Registry) (body : Option SessionEventData)
    (now : Int) : Registry × RestResponse :=
  match body with
  | none => (st, RestResponse.err 400 "Request body required")
  | some data =>
      if truthy data.session_id then
        let sid := data.session_id.getD ""
        match get_session st sid with
        | none => (st, RestResponse.err 404 "Session not found")
        | some _ =>
            (update_session_status st sid "ended" now, RestResponse.ok "Сессия остановлена")
      else (st, RestResponse.err 400 "session_id is required")

/-- Agreement of two device records on everything `get_available_servers` can
observe: name, status, last-seen, device type, and whether `server` is among
the capabilities. The records may differ in `public_ip`, `local_ip`,
`version` and the rest of the capability set. -/
def obs_eq (d d' : Device) : Prop :=
  d.name = d'.name ∧ d.status = d'.status ∧ d.last_seen = d'.last_seen
    ∧ d.device_type = d'.device_type
    ∧ ("server" ∈ d.capabilities ↔ "server" ∈ d'.capabilities)

/-- A registry with device `A` bound into session `s`, which is `active`. -/
def stDisc : Registry :=
  ⟨[("A", ⟨"A", "Device A", "online", 0, ["server"], none, none, "android", "1.0.0"⟩),
    ("B", ⟨"B", "Device B", "online", 0, ["client"], none, none, "android", "1.0.0"⟩)],
   [("s", ⟨"s", "A", some "B", "active", 0, 0⟩)]⟩

/-- A registry already holding a session under token "t". -/
def stCollide : Registry := ⟨[], [("t", ⟨"t", "S0", none, "connecting", 0, 0⟩)]⟩

/-- A registry with one `ended` session whose last activity is recent. -/
def stEnded : Registry := ⟨[], [("e", ⟨"e", "S", none, "ended", 0, 100⟩)]⟩

/-- A registry with one long-inactive session and one recently-ended one. -/
def stSweep : Registry :=
  ⟨[], [("old", ⟨"old", "S", none, "connecting", 0, 0⟩),
        ("new", ⟨"new", "S", none, "ended", 0, 4000⟩)]⟩

/-- A registry whose two server devices were inserted in the order A then B,
with A's `last_seen` older than B's. -/
def stOrder : Registry :=
  ⟨[("A", ⟨"A", "Device A", "online", 0, ["server"], none, none, "android", "1.0.0"⟩),
    ("B", ⟨"B", "Device B", "online", 5, ["server"], none, none, "android", "1.0.0"⟩)],
   []⟩

/-- A registry whose single server device carries network addresses. -/
def stPub : Registry :=
  ⟨[("A", ⟨"A", "Device A", "online", 0, ["server"], some "203.0.113.9",
           some "10.0.0.2", "android", "1.0.0"⟩)], []⟩

/-- The same registry with the addresses stripped, the version changed and an
extra capability added. -/
def stPub' : Registry :=
  ⟨[("A", ⟨"A", "Device A", "online", 0, ["server", "client"], none, none,
           "android", "2.0.0"⟩)], []⟩

/-! Helper lemmas about the association-list dict operations. -/

theorem dictGet_dictSet_self {α : Type} (m : List (String × α)) (k : String) (v : α) :
    dictGet (dictSet m k v) k = some v := by
  induction m with
  | nil => simp [dictSet, dictGet]
  | cons p rest ih =>
      by_cases h : p.1 = k
      · simp [dictSet, h, dictGet]
      · simpa [dictSet, h, dictGet] using ih

theorem mem_dictSet_self {α : Type} (m : List (String × α)) (k : String) (v : α) :
    (k, v) ∈ dictSet m k v := by
  induction m with
  | nil => simp [dictSet]
  | cons p rest ih =>
      by_cases h : p.1 = k
      · simp [dictSet, h]
      · simp only [dictSet, if_neg h, List.mem_cons]
        exact Or.inr ih

theorem key_mem_of_mem_dictSet {α : Type} {m : List (String × α)} {k a : String} {v : α}
    (h : a ∈ (dictSet m k v).map Prod.fst) : a ∈ m.map Prod.fst ∨ a = k := by
  induction m with
  | nil =>
      simp [dictSet] at h
      exact Or.inr h
  | cons p rest ih =>
      by_cases hp : p.1 = k
      · simp only [dictSet, if_pos hp, List.map_cons, List.mem_cons] at h
        rcases h with h | h
        · exact Or.inr h
        · exact Or.inl (by rw [List.map_cons]; exact List.mem_cons_of_mem _ h)
      · simp only [dictSet, if_neg hp, List.map_cons, List.mem_cons] at h
        rcases h with h | h
        · exact Or.inl (by rw [List.map_cons, h]; exact List.mem_cons_self _ _)
        · rcases ih h with h' | h'
          · exact Or.inl (by rw [List.map_cons]; exact List.mem_cons_of_mem _ h')
          · exact Or.inr h'

theorem nodup_keys_dictSet {α : Type} {m : List (String × α)} (k : String) (v : α)
    (h : (m.map Prod.fst).Nodup) : ((dictSet m k v).map Prod.fst).Nodup := by
  induction m with
  | nil => simp [dictSet]
  | cons p rest ih =>
      rw [List.map_cons, List.nodup_cons] at h
      by_cases hp : p.1 = k
      · simp only [dictSet, if_pos hp, List.map_cons, List.nodup_cons]
        exact ⟨by rw [← hp]; exact h.1, h.2⟩
      · simp only [dictSet, if_neg hp, List.map_cons, List.nodup_cons]
        refine ⟨fun hmem => ?_, ih h.2⟩
        rcases key_mem_of_mem_dictSet hmem with h' | h'
        · exact h.1 h'
        · exact hp h'

theorem eq_of_mem_dictSet {α : Type} {m : List (String × α)} {k : String} {v : α}
    {p : String × α} (hnd : (m.map Prod.fst).Nodup) (hp : p ∈ dictSet m k v)
    (hk : p.1 = k) : p = (k, v) := by
  induction m with
  | nil =>
      simp [dictSet] at hp
      exact hp
  | cons q rest ih =>
      rw [List.map_cons, List.nodup_cons] at hnd
      by_cases hq : q.1 = k
      · simp only [dictSet, if_pos hq, List.mem_cons] at hp
        rcases hp with h | h
        · exact h
        · exact absurd (by rw [hq, ← hk]; exact List.mem_map_of_mem Prod.fst h) hnd.1
      · simp only [dictSet, if_neg hq, List.mem_cons] at hp
        rcases hp with h | h
        · exact absurd (by rw [← h]; exact hk) hq
        · exact ih hnd.2 h

theorem key_unique_of_nodup {α : Type} {m : List (String × α)}
    (hnd : (m.map Prod.fst).Nodup) {p q : String × α} (hp : p ∈ m) (hq : q ∈ m)
    (h : p.1 = q.1) : p = q := by
  induction m with
  | nil => cases hp
  | cons r rest ih =>
      rw [List.map_cons, List.nodup_cons] at hnd
      rcases List.mem_cons.mp hp with hp' | hp' <;>
        rcases List.mem_cons.mp hq with hq' | hq'
      · rw [hp', hq']
      · exact absurd (by rw [← hp', h]; exact List.mem_map_of_mem Prod.fst hq') hnd.1
      · exact absurd (by rw [← hq', ← h]; exact List.mem_map_of_mem Prod.fst hp') hnd.1
      · exact ih hnd.2 hp' hq'

theorem length_dictSet {α : Type} (m : List (String × α)) (k : String) (v : α) :
    (dictSet m k v).length
      = if dictContains m k then m.length else m.length + 1 := by
  induction m with
  | nil => simp [dictSet, dictContains]
  | cons p rest ih =>
      by_cases h : p.1 = k
      · simp [dictSet, dictContains, h]
      · simp only [dictSet, if_neg h, dictContains, List.length_cons, ih]
        by_cases hc : dictContains rest k <;> simp [h, hc]

theorem foldl_dictDel_eq_filter {α : Type} (E : List String) (m : List (String × α)) :
    E.foldl (fun acc k => dictDel acc k) m
      = m.filter (fun p => decide (p.1 ∉ E)) := by
  induction E generalizing m with
  | nil => simp
  | cons k E ih =>
      rw [List.foldl_cons, ih]
      unfold dictDel
      rw [List.filter_filter]
      refine List.filter_congr (fun p _ => ?_)
      by_cases h1 : p.1 = k <;> by_cases h2 : p.1 ∈ E <;>
        simp [h1, h2, List.mem_cons]

theorem filterMap_if_eq_filter_map {α β : Type} (P : α → Prop) [DecidablePred P]
    (f : α → β) (l : List α) :
    (l.filterMap fun a => if P a then some (f a) else none)
      = (l.filter fun a => decide (P a)).map f := by
  induction l with
  | nil => rfl
  | cons a l ih =>
      by_cases h : P a <;> simp [h, ih]

theorem mem_available_id_iff (st : Registry) (now : Int) (did : String) :
    (did ∈ (get_available_servers st now).map ServerEntry.id)
      ↔ ∃ d : Device, (did, d) ∈ st.devices ∧ d.status = "online"
          ∧ "server" ∈ d.capabilities ∧ now - d.last_seen < 300 := by
  unfold get_available_servers
  rw [filterMap_if_eq_filter_map, List.map_map]
  constructor
  · intro h
    rcases List.mem_map.mp h with ⟨q, hq, hq1⟩
    rcases List.mem_filter.mp hq with ⟨hqm, hqc⟩
    rw [decide_eq_true_eq] at hqc
    simp only [Function.comp] at hq1
    refine ⟨q.2, ?_, hqc.1, hqc.2.1, hqc.2.2⟩
    have hpair : q = (did, q.2) := by
      cases q
      simp only [Prod.mk.injEq, and_true]
      exact hq1
    rw [← hpair]
    exact hqm
  · rintro ⟨d, hd, h1, h2, h3⟩
    exact List.mem_map.mpr
      ⟨(did, d), List.mem_filter.mpr ⟨hd, by simp [h1, h2, h3]⟩, rfl⟩

/-! Claim theorems. -/

/-- C1 counterexample: with an empty session store — so the session id
"missing" does not exist — both `webrtc_offer` and `ice_candidate` still
forward the payload to the target device's room instead of failing with
`UnknownSession`, refuting the claim that no payload is forwarded when the
session is unknown. -/
theorem route_forwards_despite_unknown_session_cex :
    dictGet (Registry.mk [] []).sessions "missing" = none
    ∧ (handle_webrtc_offer (Registry.mk [] []) ⟨some "missing", some "B", "blob"⟩).2
        = [Emit.forward "device_B" "webrtc_offer" ⟨some "missing", some "B", "blob"⟩]
    ∧ (handle_ice_candidate (Registry.mk [] []) ⟨some "missing", some "B", "blob"⟩).2
        = [Emit.forward "device_B" "ice_candidate" ⟨some "missing", some "B", "blob"⟩] := by
  refine ⟨rfl, ?_, ?_⟩ <;> decide

/-- C1 (amended): the relay handlers (`webrtc_offer`, `ice_candidate`)
validate only that `session_id` and `target_device` are present and
non-empty: when either is missing or empty they emit a single error and
forward nothing; when both are present they forward the payload to the
target device's room for every registry state, consulting neither the
session store nor any membership information. -/
theorem relay_validates_only_presence (st : Registry) (data : SignalData) :
    ((truthy data.session_id && truthy data.target_device) = false →
      handle_webrtc_offer st data
          = (st, [Emit.errorMsg "Session ID and target device required"])
      ∧ handle_ice_candidate st data
          = (st, [Emit.errorMsg "Session ID and target device required"]))
    ∧ ((truthy data.session_id && truthy data.target_device) = true →
      handle_webrtc_offer st data
          = (st, [Emit.forward ("device_" ++ data.target_device.getD "")
                    "webrtc_offer" data])
      ∧ handle_ice_candidate st data
          = (st, [Emit.forward ("device_" ++ data.target_device.getD "")
                    "ice_candidate" data])) := by
  constructor <;> intro h <;>
    exact ⟨by simp [handle_webrtc_offer, relay_handler, h],
           by simp [handle_ice_candidate, relay_handler, h]⟩

/-- Witness for C1 (amended) at concrete inputs: a missing `session_id`
yields the error with no forward, and present fields yield the forward. -/
theorem relay_validates_only_presence_witness :
    handle_webrtc_offer (Registry.mk [] []) ⟨none, some "B", "x"⟩
        = (Registry.mk [] [], [Emit.errorMsg "Session ID and target device required"])
    ∧ handle_webrtc_offer (Registry.mk [] []) ⟨some "s", some "B", "x"⟩
        = (Registry.mk [] [],
           [Emit.forward "device_B" "webrtc_offer" ⟨some "s", some "B", "x"⟩]) :=
  ⟨((relay_validates_only_presence (Registry.mk [] []) ⟨none, some "B", "x"⟩).1
      (by decide)).1,
   ((relay_validates_only_presence (Registry.mk [] []) ⟨some "s", some "B", "x"⟩).2
      (by decide)).1⟩

/-- C2: routing a payload between the two bound members of a session — the
session exists, the target is one of its two members, and the event carries
that session id and that target — delivers the submitted `data` value itself,
unmodified, in a single emission to the target member's room and to no other
endpoint, leaving the registry unchanged. -/
theorem route_delivers_verbatim_to_peer_only (st : Registry) (sid peer : String)
    (s : Session) (data : SignalData)
    (_hs : dictGet st.sessions sid = some s)
    (_hmem : s.server_id = peer ∨ s.client_id = some peer)
    (hd1 : data.session_id = some sid) (h1 : sid ≠ "")
    (hd2 : data.target_device = some peer) (h2 : peer ≠ "") :
    handle_webrtc_offer st data
      = (st, [Emit.forward ("device_" ++ peer) "webrtc_offer" data]) := by
  simp [handle_webrtc_offer, relay_handler, truthy, hd1, hd2, h1, h2]

/-- Witness for C2: an offer routed over session "s7" from server "A" to its
bound client "B" is delivered verbatim to room `device_B` and nowhere else. -/
theorem route_delivers_verbatim_to_peer_only_witness :
    handle_webrtc_offer
        (Registry.mk [] [("s7", ⟨"s7", "A", some "B", "active", 0, 0⟩)])
        ⟨some "s7", some "B", "offer-sdp"⟩
      = (Registry.mk [] [("s7", ⟨"s7", "A", some "B", "active", 0, 0⟩)],
         [Emit.forward "device_B" "webrtc_offer" ⟨some "s7", some "B", "offer-sdp"⟩]) :=
  route_delivers_verbatim_to_peer_only
    (Registry.mk [] [("s7", ⟨"s7", "A", some "B", "active", 0, 0⟩)])
    "s7" "B" ⟨"s7", "A", some "B", "active", 0, 0⟩ ⟨some "s7", some "B", "offer-sdp"⟩
    (by decide) (Or.inr rfl) rfl (by decide) rfl (by decide)

/-- C3 counterexample: device "A" is bound into session "s", which is in state
`active`; a transport disconnect of "A"'s endpoint leaves the session still
`active` and delivers no notification of any kind, refuting the claimed
transition to `ended` and the claimed `peer-disconnected` delivery. -/
theorem disconnect_leaves_active_session_cex :
    (dictGet (handle_disconnect stDisc "endpointA").1.sessions "s").map Session.status
        = some "active"
    ∧ (handle_disconnect stDisc "endpointA").2 = [] := by
  exact ⟨by decide, rfl⟩

/-- C3 (amended): a transport-level disconnect never changes the registry —
no session transitions to `ended` — and emits nothing; in particular a
disconnect for an already-unbound endpoint is trivially a no-op. -/
theorem disconnect_is_complete_noop (st : Registry) (endpoint : String) :
    (handle_disconnect st endpoint).1 = st
    ∧ (handle_disconnect st endpoint).2 = [] :=
  ⟨rfl, rfl⟩

/-- C4 counterexample: the token "t" is already present in the session store,
yet when the generator yields "t", `create_session` returns it unchanged —
the allocated token is not distinct from the existing ones, no retry occurs,
and the existing session record is overwritten. -/
theorem create_session_reuses_existing_token_cex :
    dictContains stCollide.sessions "t" = true
    ∧ (create_session stCollide "t" "S1" none 5).2 = "t"
    ∧ (create_session stCollide "t" "S1" none 5).1.sessions
        = [("t", ⟨"t", "S1", none, "connecting", 5, 5⟩)] := by
  decide

/-- C4 (amended): `create_session` stores the new record under the generated
token unconditionally and returns that token; there is no collision check or
retry, so a generated token equal to an existing one overwrites that session
(the store does not grow) instead of being regenerated. -/
theorem create_session_no_collision_check (st : Registry) (gid srv : String)
    (cid : Option String) (now : Int) :
    (create_session st gid srv cid now).2 = gid
    ∧ dictGet (create_session st gid srv cid now).1.sessions gid
        = some ⟨gid, srv, cid, "connecting", now, now⟩
    ∧ (create_session st gid srv cid now).1.sessions.length
        = (if dictContains st.sessions gid then st.sessions.length
           else st.sessions.length + 1) :=
  ⟨rfl, dictGet_dictSet_self st.sessions gid _, length_dictSet st.sessions gid _⟩

/-- C5 counterexample: session "e" has status `ended` and recent activity
(`now - last_activity = 0`), and the sweep keeps it, refuting the claim that
the sweep removes every session whose status is `ended`. -/
theorem sweep_keeps_recent_ended_session_cex :
    (dictGet stEnded.sessions "e").map Session.status = some "ended"
    ∧ (cleanup_expired_once stEnded 100).sessions = stEnded.sessions := by
  decide

/-- C5 (amended): a sweep removes exactly the sessions whose `last_activity`
is more than 3600 time units (60 × the 60-unit sweep interval) old,
regardless of status: the surviving sessions are precisely those with
`now - last_activity ≤ 3600`, so `ended` sessions with recent activity
remain until they go stale. -/
theorem sweep_removes_exactly_inactive_sessions (st : Registry) (now : Int)
    (hnd : (st.sessions.map Prod.fst).Nodup) :
    (cleanup_expired_once st now).sessions
      = st.sessions.filter (fun p => decide (now - p.2.last_activity ≤ 3600)) := by
  have h1 : (cleanup_expired_once st now).sessions
      = st.sessions.filter (fun p => decide (p.1 ∉
          ((st.sessions.filter
              (fun q => decide (now - q.2.last_activity > 3600))).map Prod.fst))) := by
    simp only [cleanup_expired_once]
    exact foldl_dictDel_eq_filter _ _
  rw [h1]
  refine List.filter_congr (fun p hp => ?_)
  rw [decide_eq_decide]
  have hmem : p.1 ∈ ((st.sessions.filter
        (fun q => decide (now - q.2.last_activity > 3600))).map Prod.fst)
      ↔ now - p.2.last_activity > 3600 := by
    constructor
    · intro h
      rcases List.mem_map.mp h with ⟨q, hq, hq1⟩
      rcases List.mem_filter.mp hq with ⟨hqm, hqc⟩
      rw [decide_eq_true_eq] at hqc
      have hpq : q = p := key_unique_of_nodup hnd hqm hp hq1
      rw [← hpq]
      exact hqc
    · intro h
      exact List.mem_map.mpr
        ⟨p, List.mem_filter.mpr ⟨hp, by simpa using h⟩, rfl⟩
  constructor
  · intro h
    by_contra hgt
    exact h (hmem.mpr (by omega))
  · intro h hmem'
    have := hmem.mp hmem'
    omega

/-- Witness for C5 (amended): on a store with one stale and one fresh session
the sweep keeps exactly the fresh one. -/
theorem sweep_removes_exactly_inactive_sessions_witness :
    (cleanup_expired_once stSweep 4000).sessions
      = stSweep.sessions.filter (fun p => decide ((4000 : Int) - p.2.last_activity ≤ 3600)) :=
  sweep_removes_exactly_inactive_sessions stSweep 4000 (by decide)

/-- C6 counterexample: both stored devices qualify for the listing, but it
follows the store's insertion order — `last_seen` values `[0, 5]` — which is
not ordered by `last_seen` descending, refuting the claimed ordering. -/
theorem available_servers_not_sorted_cex :
    ((get_available_servers stOrder 10).map ServerEntry.last_seen = [0, 5])
    ∧ ¬ ((get_available_servers stOrder 10).map ServerEntry.last_seen).Sorted
          (fun a b => a ≥ b) := by
  refine ⟨by decide, fun h => ?_⟩
  have h2 : ((get_available_servers stOrder 10).map ServerEntry.last_seen)
      = [0, 5] := by decide
  rw [h2] at h
  have := List.rel_of_sorted_cons h 5 (by simp)
  omega

/-- C6 (amended): `get_available_servers` returns exactly the devices that
are online, have `server` among their capabilities and were seen within 300
time units, projected to the four listed fields, in the store's insertion
order — it does not sort by `last_seen`. -/
theorem available_servers_exactly_fresh_online_servers (st : Registry) (now : Int) :
    get_available_servers st now
      = (st.devices.filter (fun p => decide (p.2.status = "online"
            ∧ "server" ∈ p.2.capabilities ∧ now - p.2.last_seen < 300))).map
          (fun p => ⟨p.1, p.2.name, p.2.device_type, p.2.last_seen⟩) :=
  filterMap_if_eq_filter_map _ _ st.devices

/-- C7: registering a device and immediately (at the same instant) reading
the available-servers listing includes that device's id exactly when the
registered capabilities — the payload's, defaulting to `["client"]` — contain
`server`, for any prior registry whose device keys are duplicate-free. -/
theorem register_then_available_iff (st : Registry) (did : String)
    (info : DeviceInfo) (now : Int) (hnd : (st.devices.map Prod.fst).Nodup) :
    (did ∈ ((get_available_servers (register_device st did info now).1 now).map
              ServerEntry.id))
      ↔ "server" ∈ info.capabilities.getD ["client"] := by
  rw [mem_available_id_iff]
  constructor
  · rintro ⟨d, hd, h1, h2, h3⟩
    have hdev : ((register_device st did info now).1).devices
        = dictSet st.devices did (freshDevice did info now) := rfl
    rw [hdev] at hd
    have hpair : (did, d) = (did, freshDevice did info now) :=
      eq_of_mem_dictSet hnd hd rfl
    have hdd : d = freshDevice did info now := by
      exact congrArg Prod.snd hpair
    rw [hdd] at h2
    exact h2
  · intro h
    refine ⟨freshDevice did info now, ?_, rfl, h, by simp [freshDevice]⟩
    exact mem_dictSet_self st.devices did _

/-- Witness for C7: on an empty registry, a device registered with
capabilities `["server"]` is listed immediately. -/
theorem register_then_available_iff_witness :
    ("A" ∈ ((get_available_servers (register_device (Registry.mk [] []) "A"
          ⟨none, some ["server"], none, none, none, none⟩ 0).1 0).map
            ServerEntry.id))
      ↔ "server" ∈ (some ["server"] : Option (List String)).getD ["client"] :=
  register_then_available_iff (Registry.mk [] []) "A"
    ⟨none, some ["server"], none, none, none, none⟩ 0 (by decide)

/-- C8 counterexample: with an empty session store, the REST stop path on the
unknown session id "x" leaves the registry unchanged but responds with a 404
`Session not found` error — an error is surfaced, so the update is not a
silent no-op on that path. -/
theorem stop_unknown_session_returns_404_cex :
    dictContains (Registry.mk [] []).sessions "x" = false
    ∧ stop_session (Registry.mk [] []) (some ⟨some "x"⟩) 7
        = (Registry.mk [] [], RestResponse.err 404 "Session not found") := by
  decide

/-- C8 (amended): for a session id absent from the store, updating the
session's status leaves the registry unchanged along every path — the core
`update_session_status`, and the `session_started` and `session_ended`
handlers are silent no-ops on the registry (they still emit a status event
but raise no error) — while the REST stop path also leaves the registry
unchanged but responds with a 404 `Session not found` error rather than
silently. -/
theorem unknown_session_update_paths (st : Registry) (sid stat : String)
    (now : Int) (h : dictGet st.sessions sid = none) (hne : sid ≠ "") :
    update_session_status st sid stat now = st
    ∧ (handle_session_started st ⟨some sid⟩ now).1 = st
    ∧ (handle_session_ended st ⟨some sid⟩ now).1 = st
    ∧ stop_session st (some ⟨some sid⟩) now
        = (st, RestResponse.err 404 "Session not found") := by
  have key : ∀ s : String, update_session_status st sid s now = st := by
    intro s
    unfold update_session_status
    rw [h]
  refine ⟨key stat, ?_, ?_, ?_⟩
  · simp [handle_session_started, truthy, hne, key]
  · simp [handle_session_ended, truthy, hne, key]
  · simp [stop_session, truthy, hne, get_session, h]

/-- Witness for C8 (amended) on an empty registry and the unknown id "x". -/
theorem unknown_session_update_paths_witness :
    update_session_status (Registry.mk [] []) "x" "active" 0 = Registry.mk [] []
    ∧ (handle_session_started (Registry.mk [] []) ⟨some "x"⟩ 0).1 = Registry.mk [] []
    ∧ (handle_session_ended (Registry.mk [] []) ⟨some "x"⟩ 0).1 = Registry.mk [] []
    ∧ stop_session (Registry.mk [] []) (some ⟨some "x"⟩) 0
        = (Registry.mk [] [], RestResponse.err 404 "Session not found") :=
  unknown_session_update_paths (Registry.mk [] []) "x" "active" 0 rfl (by decide)

/-- C9: re-registering a known device id rebuilds the record solely from the
new payload: with no `capabilities`, `name`, `device_type`, `version` or ip
fields supplied, every field reverts to its default instead of keeping the
previously registered values, and a device first registered as a `server` is
no longer listed as an available server after such a re-registration. -/
theorem reregister_resets_to_defaults (st : Registry) (did : String)
    (i1 i2 : DeviceInfo) (t1 t2 : Int)
    (hnd : (st.devices.map Prod.fst).Nodup)
    (hc : i2.capabilities = none) (hn : i2.name = none)
    (hd : i2.device_type = none) (hv : i2.version = none)
    (hp : i2.public_ip = none) (hl : i2.local_ip = none) :
    dictGet (register_device (register_device st did i1 t1).1 did i2 t2).1.devices did
      = some ⟨did, "Device " ++ did.take 8, "online", t2, ["client"], none, none,
              "android", "1.0.0"⟩
    ∧ did ∉ ((get_available_servers
          (register_device (register_device st did i1 t1).1 did i2 t2).1 t2).map
            ServerEntry.id) := by
  have hfresh : freshDevice did i2 t2
      = ⟨did, "Device " ++ did.take 8, "online", t2, ["client"], none, none,
         "android", "1.0.0"⟩ := by
    simp [freshDevice, hc, hn, hd, hv, hp, hl]
  have hnd1 : (((register_device st did i1 t1).1).devices.map Prod.fst).Nodup :=
    nodup_keys_dictSet did _ hnd
  constructor
  · show dictGet (dictSet ((register_device st did i1 t1).1.devices) did
        (freshDevice did i2 t2)) did = _
    rw [dictGet_dictSet_self, hfresh]
  · rw [mem_available_id_iff]
    rintro ⟨d, hdm, h1, h2, h3⟩
    have hpair : (did, d) = (did, freshDevice did i2 t2) :=
      eq_of_mem_dictSet hnd1 hdm rfl
    have hdd : d = freshDevice did i2 t2 := congrArg Prod.snd hpair
    rw [hdd, hfresh] at h2
    simp at h2

/-- Witness for C9: register "srv1" as a server, re-register it with an empty
payload; the record is back to defaults and "srv1" is no longer listed. -/
theorem reregister_resets_to_defaults_witness :
    dictGet (register_device (register_device (Registry.mk [] []) "srv1"
          ⟨none, some ["server"], none, none, none, none⟩ 0).1 "srv1"
          ⟨none, none, none, none, none, none⟩ 1).1.devices "srv1"
      = some ⟨"srv1", "Device " ++ "srv1".take 8, "online", 1, ["client"], none,
              none, "android", "1.0.0"⟩
    ∧ "srv1" ∉ ((get_available_servers
          (register_device (register_device (Registry.mk [] []) "srv1"
              ⟨none, some ["server"], none, none, none, none⟩ 0).1 "srv1"
              ⟨none, none, none, none, none, none⟩ 1).1 1).map ServerEntry.id) :=
  reregister_resets_to_defaults (Registry.mk [] []) "srv1"
    ⟨none, some ["server"], none, none, none, none⟩
    ⟨none, none, none, none, none, none⟩ 0 1
    (by decide) rfl rfl rfl rfl rfl rfl

/-- C10: the available-servers listing exposes only the id, name, device type
and last-seen of each qualifying device: two registries whose device tables
agree entrywise on the key and on those observable fields — and may differ
arbitrarily in `public_ip`, `local_ip`, `version` and in the capability set
beyond membership of `server` — produce identical listings, so device network
addresses never leak through the discovery listing. -/
theorem available_servers_hides_private_fields (st st' : Registry) (now : Int)
    (h : List.Forall₂ (fun p q => p.1 = q.1 ∧ obs_eq p.2 q.2)
          st.devices st'.devices) :
    get_available_servers st now = get_available_servers st' now := by
  obtain ⟨ld, ls⟩ := st
  obtain ⟨ld', ls'⟩ := st'
  dsimp only at h
  unfold get_available_servers
  dsimp only
  induction h with
  | nil => rfl
  | cons h1 h2 ih =>
      rename_i p q l1 l2
      obtain ⟨hk, hn, hs, hls, hdt, hcap⟩ := h1
      simp only [List.filterMap_cons]
      have hcond : (p.2.status = "online" ∧ "server" ∈ p.2.capabilities
            ∧ now - p.2.last_seen < 300)
          ↔ (q.2.status = "online" ∧ "server" ∈ q.2.capabilities
            ∧ now - q.2.last_seen < 300) := by
        rw [hs, hls, hcap]
      by_cases hc : p.2.status = "online" ∧ "server" ∈ p.2.capabilities
          ∧ now - p.2.last_seen < 300
      · rw [if_pos hc, if_pos (hcond.mp hc), ih]
        rw [hk, hn, hdt, hls]
      · rw [if_neg hc, if_neg (fun hq => hc (hcond.mpr hq)), ih]

/-- Witness for C10: stripping the addresses, changing the version and adding
a capability on the single listed device leaves the listing identical. -/
theorem available_servers_hides_private_fields_witness :
    get_available_servers stPub 0 = get_available_servers stPub' 0 :=
  available_servers_hides_private_fields stPub stPub' 0
    (List.Forall₂.cons ⟨rfl, rfl, rfl, rfl, rfl, by decide⟩ List.Forall₂.nil)

end RailwayServer
